import Mathlib

/-!
Verification of the autonomous orchestration core of the
`ai-empire-automation` repository against its specification.

The definitions below are a shallow embedding of the Python sources:

* `core/ultra_automated_orchestrator.py`
  - `AutonomousDecisionEngine.calculate_lead_score`
  - `UltraAutomatedOrchestrator._auto_qualify_leads`
  - `UltraAutomatedOrchestrator.start_autonomous_operation`
  - `AutoErrorRecovery.handle_revenue_error` and
    `AutoErrorRecovery._alert_for_manual_intervention`
* `core/complete_agent_implementations.py`
  - `PodcastBookingAgent.execute_task` and its helpers

Machine reals (Python floats) are modelled by `ℚ`; the score constants
and every comparison appearing in the claims are exact in both
semantics.  Fallible Python code (statements that can raise) is modelled
with `Except String`.  Effects (status assignments, alert emails) are
modelled as explicit traces returned alongside the result.
-/

namespace AiEmpire

/-! ### Python string primitives -/

/-- Boolean substring test on lists of characters: `needle` occurs as a
contiguous sublist of the first argument.  Mirrors Python `needle in hay`
(in particular the empty needle is contained in every string). -/
def listContainsSub : List Char → List Char → Bool
  | [], needle => needle.isEmpty
  | h :: t, needle => needle.isPrefixOf (h :: t) || listContainsSub t needle

/-- Python `needle in hay` for strings (substring containment). -/
def strContainsSub (hay needle : String) : Bool :=
  listContainsSub hay.data needle.data

/-- ASCII lower-casing of one character, as Python `str.lower()` acts on
the ASCII strings appearing in the sources. -/
def pyLowerChar (c : Char) : Char :=
  if 65 ≤ c.toNat ∧ c.toNat ≤ 90 then Char.ofNat (c.toNat + 32) else c

/-- Python `s.lower()` (on ASCII data). -/
def pyToLower (s : String) : String :=
  String.mk (s.data.map pyLowerChar)

/-- Python `s.split(sep)` for a one-character separator: splits into the
(possibly empty) runs between occurrences of `sep`; the result is always
nonempty. -/
def splitOnChar (sep : Char) : List Char → List (List Char)
  | [] => [[]]
  | c :: rest =>
    let r := splitOnChar sep rest
    if c = sep then [] :: r
    else
      match r with
      | [] => [[c]]
      | h :: t => (c :: h) :: t

/-- Python `s.split("-")` as a list of strings. -/
def pySplitDash (s : String) : List String :=
  (splitOnChar '-' s.data).map String.mk

/-- Reads a nonempty, all-decimal-digit character list as a natural
number; `none` if empty or any character is not a digit. -/
def pyDigits : List Char → Option Nat
  | [] => none
  | l =>
    l.foldl
      (fun acc c =>
        match acc with
        | none => none
        | some n => if c.isDigit then some (n * 10 + (c.toNat - 48)) else none)
      (some 0)

/-- Drops leading whitespace characters. -/
def dropLeadingWs : List Char → List Char
  | [] => []
  | c :: t => if c.isWhitespace then dropLeadingWs t else c :: t

/-- Drops surrounding whitespace, as Python `int()` does before parsing. -/
def trimChars (l : List Char) : List Char :=
  (dropLeadingWs (dropLeadingWs l).reverse).reverse

/-- Python `int(s)` on its decimal core: optional surrounding whitespace,
an optional single sign, then one or more decimal digits; anything else
raises `ValueError`, modelled as `none`.  (Underscore separators and
non-ASCII digits, which CPython also accepts, are not modelled; no input
appearing in the sources or the claims uses them.) -/
def pyInt (s : String) : Option Int :=
  match trimChars s.data with
  | '-' :: rest => (pyDigits rest).map (fun n => -(n : Int))
  | '+' :: rest => (pyDigits rest).map (fun n => (n : Int))
  | l => (pyDigits l).map (fun n => (n : Int))

/-! ### Lead records and `calculate_lead_score`

`calculate_lead_score(lead)` reads `lead.get("title", "")`,
`lead.get("company_size", "0")`, `lead.get("industry", "")` and
`lead.get("recent_activity", False)` from a Python dict.  The embedding
fixes `title` and `industry` to strings (the `""` default included) and
`recent_activity` to its truth value; `company_size` keeps the code's
explicit `isinstance(company_size, str)` distinction. -/

/-- The value found under `"company_size"`: either a string, or a value
of some other runtime type (which fails the code's `isinstance` test). -/
inductive CompanySize where
  | str (s : String)
  | nonString
  deriving DecidableEq

/-- A lead record, restricted to the four fields `calculate_lead_score`
reads. -/
structure Lead where
  title : String
  company_size : CompanySize
  industry : String
  recent_activity : Bool
  deriving DecidableEq

/-- `high_value_titles` from `calculate_lead_score`. -/
def high_value_titles : List String :=
  ["CEO", "CTO", "VP", "Director", "Head of", "Chief", "President"]

/-- `target_industries` from `calculate_lead_score`. -/
def target_industries : List String :=
  ["technology", "software", "ai", "healthcare", "fintech", "saas"]

/-- Title rule: `0.35` if any `hvt.lower()` is a substring of
`title.lower()`. -/
def title_contribution (lead : Lead) : ℚ :=
  if high_value_titles.any
      (fun hvt => strContainsSub (pyToLower lead.title) (pyToLower hvt)) then
    35 / 100
  else 0

/-- Company-size rule: when the value is a string containing `"-"`, the
code runs `int(company_size.split("-")[1])` — which raises `ValueError`
on a non-numeric part — then awards `0.25` for an upper bound `≥ 200`
and `0.15` for `≥ 50`; otherwise the rule contributes `0`. -/
def company_size_contribution : CompanySize → Except String ℚ
  | CompanySize.nonString => Except.ok 0
  | CompanySize.str cs =>
    if strContainsSub cs ("-") then
      match pyInt (((pySplitDash cs).get? 1).getD ("")) with
      | none => Except.error ("ValueError")
      | some max_size =>
        Except.ok (if max_size ≥ 200 then 25 / 100
                   else if max_size ≥ 50 then 15 / 100 else 0)
    else Except.ok 0

/-- Industry rule: `0.20` if any target industry is a substring of
`industry.lower()` (the target list is already lowercase in the code). -/
def industry_contribution (lead : Lead) : ℚ :=
  if target_industries.any
      (fun ti => strContainsSub (pyToLower lead.industry) ti) then
    20 / 100
  else 0

/-- Recent-activity rule: `0.20` if the flag is truthy. -/
def activity_contribution (lead : Lead) : ℚ :=
  if lead.recent_activity then 20 / 100 else 0

/-- `AutonomousDecisionEngine.calculate_lead_score`: the sum of the four
rule contributions, clamped by `min(score, 1.0)`.  The company-size rule
can raise `ValueError`, which propagates out of the function. -/
def calculate_lead_score (lead : Lead) : Except String ℚ :=
  match company_size_contribution lead.company_size with
  | Except.error e => Except.error e
  | Except.ok c =>
    Except.ok (min (title_contribution lead + c
      + industry_contribution lead + activity_contribution lead) 1)

/-! ### `UltraAutomatedOrchestrator._auto_qualify_leads`

The loop scores each lead; a lead with `score >= 0.7` is passed to
`_auto_research_lead` (a coroutine absent from the sources — it lives in
no file under `src/`; its behavior is taken as a parameter `research`),
then the enhanced record gets `ai_score` and `auto_qualified` fields set
and is appended to the result.  An exception from the scorer propagates
out of the whole call. -/

/-- The record appended by `_auto_qualify_leads`: the lead data returned
by `_auto_research_lead`, with the `"ai_score"` and `"auto_qualified"`
entries the loop writes into it. -/
structure EnhancedLead where
  base : Lead
  ai_score : ℚ
  auto_qualified : Bool
  deriving DecidableEq

/-- `UltraAutomatedOrchestrator._auto_qualify_leads`. -/
def auto_qualify_leads (research : Lead → Lead) :
    List Lead → Except String (List EnhancedLead)
  | [] => Except.ok []
  | l :: ls =>
    match calculate_lead_score l with
    | Except.error e => Except.error e
    | Except.ok s =>
      match auto_qualify_leads research ls with
      | Except.error e => Except.error e
      | Except.ok rest =>
        if 7 / 10 ≤ s then
          Except.ok ({ base := research l, ai_score := s,
                       auto_qualified := true } :: rest)
        else Except.ok rest

/-! ### `AutoErrorRecovery`

`recovery_attempts` is a Python dict from error-class keys to counters;
a key absent from the dict is modelled as counter `0` (the code inserts
`0` before the first increment, so the two are indistinguishable).
`max_recovery_attempts` is `3` in `__init__` but is kept as a field.

Effects are explicit: `fallback_attempted` records that the
`≤ ceiling` branch ran (it calls `_alternative_revenue_methods` and
swallows any error that fallback raises), `manual_intervention_required`
records that the over-ceiling branch ran, and `alerts_sent` lists the
messages handed to the alerting collaborator.  Timestamps
(`datetime.now()`) enter as the `now` parameter. -/

/-- The mutable state of `AutoErrorRecovery`. -/
structure RecoveryState where
  recovery_attempts : String → Nat
  max_recovery_attempts : Nat

/-- The error-class key `f"revenue_{str(error)[:50]}"` derived in
`handle_revenue_error` (Python slicing takes the first 50 code points). -/
def revenue_error_key (error : String) : String :=
  ("revenue_") ++ String.mk (error.data.take 50)

/-- The alert text built by `_alert_for_manual_intervention` (an
f-string interpolating the system name, `str(error)` and
`datetime.now()`). -/
def alert_message (system error now : String) : String :=
  ("RARE MANUAL INTERVENTION REQUIRED (2% case) System: ") ++ system
    ++ (" Error: ") ++ error ++ (" Time: ") ++ now
    ++ (" The AI has attempted automatic recovery but requires human oversight.")

/-- Modelled from the spec: `_send_manual_intervention_alert` is called
by `_alert_for_manual_intervention` but defined nowhere under `src/`;
the spec says the alerting collaborator "exposes a single
`notify(message)` operation used exclusively by the Recovery Policy's
escalation path".  Delivery is modelled as emitting the message as one
notify invocation. -/
def send_manual_intervention_alert (message : String) : List String :=
  [message]

/-- `AutoErrorRecovery._alert_for_manual_intervention`: builds the alert
message and hands it to the alerting collaborator. -/
def alert_for_manual_intervention (system error now : String) : List String :=
  send_manual_intervention_alert (alert_message system error now)

/-- The observable outcome of one `handle_revenue_error` call. -/
structure HandleResult where
  state : RecoveryState
  fallback_attempted : Bool
  manual_intervention_required : Bool
  alerts_sent : List String

/-- `AutoErrorRecovery.handle_revenue_error`: increments the counter for
the derived error-class key (inserting `0` first if absent); while the
counter is `≤ max_recovery_attempts` it attempts the alternative revenue
fallback (whose own failure is caught and logged) and returns; once the
counter exceeds the ceiling it calls `_alert_for_manual_intervention`. -/
def handle_revenue_error (st : RecoveryState) (error now : String) :
    HandleResult :=
  let error_key := revenue_error_key error
  let n := st.recovery_attempts error_key + 1
  let st' : RecoveryState :=
    { st with recovery_attempts :=
        fun k => if k = error_key then n else st.recovery_attempts k }
  if n ≤ st.max_recovery_attempts then
    { state := st', fallback_attempted := true,
      manual_intervention_required := false, alerts_sent := [] }
  else
    { state := st', fallback_attempted := false,
      manual_intervention_required := true,
      alerts_sent := alert_for_manual_intervention ("revenue") error now }

/-- The recovery state after `n` successive failures with the same
error, starting from `st`. -/
def iterate_revenue_failures (st : RecoveryState) (error now : String) :
    Nat → RecoveryState
  | 0 => st
  | n + 1 =>
    (handle_revenue_error (iterate_revenue_failures st error now n)
      error now).state

/-! ### `UltraAutomatedOrchestrator.start_autonomous_operation`

The entry point awaits `asyncio.gather(...)` over its eight cycle
coroutines, *without* `return_exceptions=True`.  The cycle bodies are
external to this function (most of the eight methods are absent from
the sources), so their outcomes are the parameter.  With default
`asyncio.gather` semantics, if any awaitable raises then the exception
propagates to the caller of `gather` and no result list is produced;
the model deterministically reports the first failure in list order
(which failure is reported does not affect any claim: either way no
summaries are returned). -/

/-- `asyncio.gather` with default `return_exceptions=False`. -/
def asyncio_gather {α : Type} : List (Except String α) → Except String (List α)
  | [] => Except.ok []
  | Except.ok a :: rest => (asyncio_gather rest).map (fun l => a :: l)
  | Except.error e :: _ => Except.error e

/-- `UltraAutomatedOrchestrator.start_autonomous_operation`, with the
outcomes of its gathered cycle coroutines as the parameter. -/
def start_autonomous_operation {α : Type} (cycles : List (Except String α)) :
    Except String (List α) :=
  asyncio_gather cycles

/-! ### `PodcastBookingAgent.execute_task`

From `core/complete_agent_implementations.py`.  `BaseAgent`, `Task` and
`AgentStatus` are imported from `full_agent_architecture.py`, which is
part of the repository but absent from `src/`; they are modelled from
the spec ("a Task: a kind tag, opaque payload, and an execution status
{pending, working, completed, error}").  The successive assignments to
`self.status` are recorded as a trace.  `_personalize_pitch` is likewise
absent from the sources and is a parameter. -/

/-- Modelled from the spec: the execution status values
`{pending, working, completed, error}`; the enum itself lives in the
absent `full_agent_architecture.py`. -/
inductive AgentStatus where
  | pending
  | working
  | completed
  | error
  deriving DecidableEq

/-- One entry of the simulated podcast database in
`_find_relevant_podcasts`. -/
structure Podcast where
  name : String
  host : String
  email : String
  audience_size : Nat
  topic_match : String
  last_episode_date : String
  deriving DecidableEq

/-- The payload dict of a podcast-agent task: presence or absence of the
`"podcasts"` and `"pitch_template"` keys. -/
structure PodcastTaskData where
  podcasts : Option (List Podcast)
  pitch_template : Option String
  deriving DecidableEq

/-- Modelled from the spec: a Task is "a kind tag (enumerated string),
opaque payload"; the class itself lives in the absent
`full_agent_architecture.py`.  The payload here is the podcast-agent
shape. -/
structure PTask where
  task_type : String
  data : PodcastTaskData
  deriving DecidableEq

/-- The static result of
`PodcastBookingAgent._find_relevant_podcasts`. -/
def find_relevant_podcasts : List Podcast :=
  [{ name := "AI Ethics Weekly", host := "Dr. Sarah Chen",
     email := "booking@aiethicsweekly.com", audience_size := 15000,
     topic_match := "AI ethics", last_episode_date := "2024-01-15" },
   { name := "Inclusive Tech Leaders", host := "Marcus Johnson",
     email := "marcus@inclusivetechleaders.com", audience_size := 8500,
     topic_match := "inclusive design", last_episode_date := "2024-01-10" }]

/-- The first line of `_get_default_pitch` (the remaining body of the
template is marketing prose never inspected by any claim and is not
reproduced). -/
def get_default_pitch : String :=
  "Subject: AI Governance Expert Available for Your Podcast"

/-- One entry appended by `_send_podcast_pitches`. -/
structure PitchResult where
  podcast : String
  sent_to : String
  sent_at : String
  pitch_content : String
  status : String
  deriving DecidableEq

/-- `PodcastBookingAgent._send_podcast_pitches`: `data["podcasts"]`
raises `KeyError` when the key is absent; otherwise each podcast is
personalized (via the absent `_personalize_pitch`, the parameter) and a
sent-record is appended. -/
def send_podcast_pitches (personalize : String → Podcast → String)
    (now : String) (data : PodcastTaskData) :
    Except String (List PitchResult) :=
  match data.podcasts with
  | none => Except.error ("KeyError: podcasts")
  | some pods =>
    let template := data.pitch_template.getD get_default_pitch
    Except.ok (pods.map (fun p =>
      { podcast := p.name, sent_to := p.email, sent_at := now,
        pitch_content := personalize template p, status := "sent" }))

/-- The value returned by `PodcastBookingAgent.execute_task` when it is
not Python `None`: one of the two branch dicts, or the
`{"error": str(e)}` dict from the `except` clause. -/
inductive PodcastTaskResult where
  | findPodcasts (podcasts_found : Nat) (podcasts : List Podcast)
  | pitches (pitches_sent : Nat) (results : List PitchResult)
  | errorResult (msg : String)
  deriving DecidableEq

/-- The observable outcome of one `execute_task` call: the successive
assignments to `self.status`, in order, and the returned value (`none`
models Python `None`). -/
structure ExecOutcome where
  statuses : List AgentStatus
  result : Option PodcastTaskResult
  deriving DecidableEq

/-- `PodcastBookingAgent.execute_task`: sets `status = WORKING`, runs
the `if/elif` dispatch on `task.task_type` inside `try` (a kind matching
neither branch falls off the end and returns Python `None`); on an
exception the `except` clause sets `status = ERROR` and returns the
error dict; the `finally` clause then sets `status = COMPLETED` on
every path. -/
def podcast_execute_task (personalize : String → Podcast → String)
    (now : String) (task : PTask) : ExecOutcome :=
  let body : Except String (Option PodcastTaskResult) :=
    if task.task_type = "find_podcasts" then
      Except.ok (some (PodcastTaskResult.findPodcasts
        find_relevant_podcasts.length find_relevant_podcasts))
    else if task.task_type = "pitch_podcast" then
      match send_podcast_pitches personalize now task.data with
      | Except.error e => Except.error e
      | Except.ok rs =>
        Except.ok (some (PodcastTaskResult.pitches rs.length rs))
    else Except.ok none
  match body with
  | Except.ok r =>
    { statuses := [AgentStatus.working, AgentStatus.completed], result := r }
  | Except.error e =>
    { statuses := [AgentStatus.working, AgentStatus.error,
                   AgentStatus.completed],
      result := some (PodcastTaskResult.errorResult e) }

/-! ## Helper lemmas -/

lemma title_contribution_nonneg (lead : Lead) : 0 ≤ title_contribution lead := by
  unfold title_contribution
  split_ifs <;> norm_num

lemma industry_contribution_nonneg (lead : Lead) :
    0 ≤ industry_contribution lead := by
  unfold industry_contribution
  split_ifs <;> norm_num

lemma activity_contribution_nonneg (lead : Lead) :
    0 ≤ activity_contribution lead := by
  unfold activity_contribution
  split_ifs <;> norm_num

lemma company_size_contribution_nonneg (cs : CompanySize) (c : ℚ)
    (h : company_size_contribution cs = Except.ok c) : 0 ≤ c := by
  cases cs with
  | nonString =>
    simp only [company_size_contribution, Except.ok.injEq] at h
    subst h; norm_num
  | str s =>
    simp only [company_size_contribution] at h
    split at h
    · split at h
      · exact absurd h (by simp)
      · simp only [Except.ok.injEq] at h
        subst h
        split_ifs <;> norm_num
    · simp only [Except.ok.injEq] at h
      subst h; norm_num

/-! ## Claims about the Lead Scorer -/

/-- **C1.** For every lead record, whenever `calculate_lead_score`
returns a score `s`, `0.0 ≤ s ≤ 1.0`: the sum of the nonnegative rule
contributions is clamped to at most `1.0` by `min(score, 1.0)`. -/
theorem lead_score_bounds (lead : Lead) (s : ℚ)
    (h : calculate_lead_score lead = Except.ok s) : 0 ≤ s ∧ s ≤ 1 := by
  unfold calculate_lead_score at h
  cases hc : company_size_contribution lead.company_size with
  | error e => rw [hc] at h; exact absurd h (by simp)
  | ok c =>
    rw [hc] at h
    simp only [Except.ok.injEq] at h
    subst h
    constructor
    · exact le_min
        (add_nonneg (add_nonneg
          (add_nonneg (title_contribution_nonneg lead)
            (company_size_contribution_nonneg _ _ hc))
          (industry_contribution_nonneg lead))
          (activity_contribution_nonneg lead))
        zero_le_one
    · exact min_le_right _ _

/-- Witness for C1: the bounds hold at a concrete lead. -/
theorem lead_score_bounds_witness :
    0 ≤ min ((35 : ℚ) / 100 + 25 / 100 + 20 / 100 + 20 / 100) 1 ∧
      min ((35 : ℚ) / 100 + 25 / 100 + 20 / 100 + 20 / 100) 1 ≤ 1 :=
  lead_score_bounds
    { title := "VP of Engineering", company_size := CompanySize.str ("50-500"),
      industry := "SaaS", recent_activity := true } _ rfl

/-- **C8.** A lead with title `"VP of Engineering"`, company size
`"50-500"`, industry `"SaaS"` and `recent_activity=true` collects all
four rule contributions, `0.35 + 0.25 + 0.20 + 0.20 = 1.0`, and the
clamp leaves the score at exactly `1.0`. -/
theorem perfect_lead_scores_one :
    calculate_lead_score
      { title := "VP of Engineering", company_size := CompanySize.str ("50-500"),
        industry := "SaaS", recent_activity := true } = Except.ok 1 := by
  show Except.ok (min ((35 : ℚ) / 100 + 25 / 100 + 20 / 100 + 20 / 100) 1)
    = Except.ok 1
  norm_num

/-- **C3, counterexample.** The claim says a malformed `company_size`
string *with* a `"-"` separator also contributes `0` and never raises;
but on `company_size = "unknown-size"` the code runs
`int("size")`, which raises `ValueError` out of
`calculate_lead_score`. -/
theorem malformed_dash_company_size_raises :
    calculate_lead_score
      { title := "", company_size := CompanySize.str ("unknown-size"),
        industry := "", recent_activity := false }
      = Except.error ("ValueError") := rfl

/-- **C3, amended.** For every lead whose `company_size` is a string
*not containing* `"-"` (however malformed), the company-size rule
contributes `0` and `calculate_lead_score` returns a score rather than
raising.  (Malformed strings containing `"-"` instead raise
`ValueError`, per the counterexample.) -/
theorem no_dash_company_size_contributes_zero (cs : String)
    (h : strContainsSub cs ("-") = false) :
    company_size_contribution (CompanySize.str cs) = Except.ok 0 ∧
      ∀ lead : Lead, lead.company_size = CompanySize.str cs →
        ∃ s : ℚ, calculate_lead_score lead = Except.ok s := by
  have h1 : company_size_contribution (CompanySize.str cs) = Except.ok 0 := by
    simp only [company_size_contribution]
    rw [h]
    simp
  refine ⟨h1, fun lead hl => ?_⟩
  unfold calculate_lead_score
  rw [hl, h1]
  exact ⟨_, rfl⟩

/-- Witness for the amended C3: `"unknown"` contains no `"-"`, the
company-size rule contributes `0`, scoring never raises, and the
all-blank lead with `company_size = "unknown"` scores exactly `0.0`. -/
theorem no_dash_company_size_witness :
    (company_size_contribution (CompanySize.str ("unknown")) = Except.ok 0 ∧
      ∀ lead : Lead, lead.company_size = CompanySize.str ("unknown") →
        ∃ s : ℚ, calculate_lead_score lead = Except.ok s) ∧
    calculate_lead_score
      { title := "", company_size := CompanySize.str ("unknown"),
        industry := "", recent_activity := false } = Except.ok 0 :=
  ⟨no_dash_company_size_contributes_zero ("unknown") rfl,
    by
      show Except.ok (min ((0 : ℚ) + 0 + 0 + 0) 1) = Except.ok 0
      norm_num⟩

/-! ## Claim about `_auto_qualify_leads` -/

/-- **C10.** For every input list of leads (and any behavior of the
external `_auto_research_lead`), a successful `_auto_qualify_leads`
returns exactly the (researched) leads whose `calculate_lead_score` is
at least `0.7`, in input order, each carrying `ai_score` equal to its
computed score and `auto_qualified = True`; leads scoring below `0.7`
never appear. -/
theorem auto_qualify_leads_spec (research : Lead → Lead)
    (leads : List Lead) (out : List EnhancedLead)
    (h : auto_qualify_leads research leads = Except.ok out) :
    out = leads.filterMap (fun l =>
      match calculate_lead_score l with
      | Except.ok s =>
        if 7 / 10 ≤ s then
          some { base := research l, ai_score := s, auto_qualified := true }
        else none
      | Except.error _ => none) := by
  induction leads generalizing out with
  | nil =>
    simp only [auto_qualify_leads, Except.ok.injEq] at h
    subst h
    simp
  | cons l ls ih =>
    simp only [auto_qualify_leads] at h
    cases hs : calculate_lead_score l with
    | error e => rw [hs] at h; exact absurd h (by simp)
    | ok s =>
      rw [hs] at h
      cases hr : auto_qualify_leads research ls with
      | error e => rw [hr] at h; exact absurd h (by simp)
      | ok rest =>
        rw [hr] at h
        dsimp only at h
        by_cases hq : (7 : ℚ) / 10 ≤ s
        · rw [if_pos hq] at h
          simp only [Except.ok.injEq] at h
          subst h
          simp only [List.filterMap_cons, hs, if_pos hq, ih rest hr]
        · rw [if_neg hq] at h
          simp only [Except.ok.injEq] at h
          subst h
          simp only [List.filterMap_cons, hs, if_neg hq, ih rest hr]

/-- Witness for C10 at a two-lead list: the perfect lead qualifies with
`ai_score = 1` and `auto_qualified = true`; the blank lead (score `0`)
is dropped. -/
theorem auto_qualify_leads_spec_witness :
    ([{ base := { title := "VP of Engineering",
                  company_size := CompanySize.str ("50-500"),
                  industry := "SaaS", recent_activity := true },
        ai_score := 1, auto_qualified := true }] : List EnhancedLead) =
      [({ title := "VP of Engineering",
          company_size := CompanySize.str ("50-500"),
          industry := "SaaS", recent_activity := true } : Lead),
       { title := "", company_size := CompanySize.str ("0"),
         industry := "", recent_activity := false }].filterMap (fun l =>
        match calculate_lead_score l with
        | Except.ok s =>
          if 7 / 10 ≤ s then
            some { base := id l, ai_score := s, auto_qualified := true }
          else none
        | Except.error _ => none) :=
  auto_qualify_leads_spec id _ _ (by
    have h1 : calculate_lead_score
        { title := "VP of Engineering",
          company_size := CompanySize.str ("50-500"),
          industry := "SaaS", recent_activity := true } = Except.ok 1 := by
      show Except.ok (min ((35 : ℚ) / 100 + 25 / 100 + 20 / 100 + 20 / 100) 1)
        = Except.ok 1
      norm_num
    have h2 : calculate_lead_score
        { title := "", company_size := CompanySize.str ("0"),
          industry := "", recent_activity := false } = Except.ok 0 := by
      show Except.ok (min ((0 : ℚ) + 0 + 0 + 0) 1) = Except.ok 0
      norm_num
    norm_num [auto_qualify_leads, h1, h2])

/-! ## Claims about `AutoErrorRecovery` -/

lemma handle_revenue_error_state (st : RecoveryState) (e now : String) :
    (handle_revenue_error st e now).state =
      { st with recovery_attempts := fun k =>
          if k = revenue_error_key e then
            st.recovery_attempts (revenue_error_key e) + 1
          else st.recovery_attempts k } := by
  unfold handle_revenue_error
  dsimp only
  split <;> rfl

lemma handle_revenue_error_recover (st : RecoveryState) (e now : String)
    (h : st.recovery_attempts (revenue_error_key e) + 1
      ≤ st.max_recovery_attempts) :
    (handle_revenue_error st e now).fallback_attempted = true ∧
      (handle_revenue_error st e now).manual_intervention_required = false ∧
      (handle_revenue_error st e now).alerts_sent = [] := by
  unfold handle_revenue_error
  rw [if_pos h]
  exact ⟨rfl, rfl, rfl⟩

lemma handle_revenue_error_escalate (st : RecoveryState) (e now : String)
    (h : st.max_recovery_attempts
      < st.recovery_attempts (revenue_error_key e) + 1) :
    (handle_revenue_error st e now).manual_intervention_required = true ∧
      (handle_revenue_error st e now).fallback_attempted = false ∧
      (handle_revenue_error st e now).alerts_sent
        = alert_for_manual_intervention ("revenue") e now := by
  unfold handle_revenue_error
  rw [if_neg (by omega)]
  exact ⟨rfl, rfl, rfl⟩

lemma iterate_revenue_failures_attempts (st : RecoveryState) (e now : String)
    (n : Nat) :
    (iterate_revenue_failures st e now n).recovery_attempts
        (revenue_error_key e)
      = st.recovery_attempts (revenue_error_key e) + n := by
  induction n with
  | zero => rfl
  | succ m ih =>
    rw [iterate_revenue_failures, handle_revenue_error_state]
    simp [ih]
    omega

lemma iterate_revenue_failures_max (st : RecoveryState) (e now : String)
    (n : Nat) :
    (iterate_revenue_failures st e now n).max_recovery_attempts
      = st.max_recovery_attempts := by
  induction n with
  | zero => rfl
  | succ m ih =>
    rw [iterate_revenue_failures, handle_revenue_error_state]
    exact ih

/-- **C2.** For a handler that always fails with the same error (hence
the same error-class key), starting from a fresh key and the default
ceiling `3`: each of the first three failures takes the recovery branch
(fallback attempted, no escalation) — in particular after only two
failures the third does not escalate — and the failure after exactly
three prior failures escalates for manual intervention and attempts no
fallback. -/
theorem revenue_recovery_escalates_after_three
    (st : RecoveryState) (e now : String)
    (h0 : st.recovery_attempts (revenue_error_key e) = 0)
    (hmax : st.max_recovery_attempts = 3) :
    (∀ n : Nat, n < 3 →
      (handle_revenue_error (iterate_revenue_failures st e now n) e
          now).fallback_attempted = true ∧
      (handle_revenue_error (iterate_revenue_failures st e now n) e
          now).manual_intervention_required = false) ∧
    (handle_revenue_error (iterate_revenue_failures st e now 3) e
        now).manual_intervention_required = true ∧
    (handle_revenue_error (iterate_revenue_failures st e now 3) e
        now).fallback_attempted = false := by
  constructor
  · intro n hn
    have hr := handle_revenue_error_recover
      (iterate_revenue_failures st e now n) e now
      (by
        rw [iterate_revenue_failures_attempts, iterate_revenue_failures_max,
          h0, hmax]
        omega)
    exact ⟨hr.1, hr.2.1⟩
  · have he := handle_revenue_error_escalate
      (iterate_revenue_failures st e now 3) e now
      (by
        rw [iterate_revenue_failures_attempts, iterate_revenue_failures_max,
          h0, hmax]
        omega)
    exact ⟨he.1, he.2.1⟩

/-- Witness for C2 at a concrete fresh recovery state with ceiling 3. -/
theorem revenue_recovery_escalates_after_three_witness :
    (∀ n : Nat, n < 3 →
      (handle_revenue_error
          (iterate_revenue_failures ⟨fun _ => 0, 3⟩ ("boom") ("t1") n)
          ("boom") ("t1")).fallback_attempted = true ∧
      (handle_revenue_error
          (iterate_revenue_failures ⟨fun _ => 0, 3⟩ ("boom") ("t1") n)
          ("boom") ("t1")).manual_intervention_required = false) ∧
    (handle_revenue_error
        (iterate_revenue_failures ⟨fun _ => 0, 3⟩ ("boom") ("t1") 3)
        ("boom") ("t1")).manual_intervention_required = true ∧
    (handle_revenue_error
        (iterate_revenue_failures ⟨fun _ => 0, 3⟩ ("boom") ("t1") 3)
        ("boom") ("t1")).fallback_attempted = false :=
  revenue_recovery_escalates_after_three ⟨fun _ => 0, 3⟩ ("boom") ("t1")
    rfl rfl

/-- **C7.** Whenever the recovery ceiling is exceeded, the escalation
path hands the alerting collaborator exactly one notify message — the
`_alert_for_manual_intervention` text — and that message carries the
error details (the error string occurs verbatim inside it); the signal
is never swallowed. -/
theorem escalation_alerts_collaborator (st : RecoveryState) (e now : String)
    (h : st.max_recovery_attempts
      < st.recovery_attempts (revenue_error_key e) + 1) :
    (handle_revenue_error st e now).alerts_sent
        = [alert_message ("revenue") e now] ∧
      List.IsInfix e.data (alert_message ("revenue") e now).data := by
  refine ⟨(handle_revenue_error_escalate st e now h).2.2, ?_⟩
  refine ⟨("RARE MANUAL INTERVENTION REQUIRED (2% case) System: revenue Error: ").data,
    ((" Time: ") ++ now
      ++ (" The AI has attempted automatic recovery but requires human oversight.")).data,
    ?_⟩
  simp [alert_message, String.data_append, List.append_assoc]

/-- Witness for C7: a state already at the ceiling escalates and the
alert carries the error text. -/
theorem escalation_alerts_collaborator_witness :
    (handle_revenue_error ⟨fun _ => 3, 3⟩ ("boom") ("t2")).alerts_sent
        = [alert_message ("revenue") ("boom") ("t2")] ∧
      List.IsInfix ("boom").data
        (alert_message ("revenue") ("boom") ("t2")).data :=
  escalation_alerts_collaborator ⟨fun _ => 3, 3⟩ ("boom") ("t2") (by decide)

/-- **C9.** Recovery counters for distinct error-class keys are
independent: any number of failures recorded under the key derived from
error `e` leaves the attempt counter of every other key unchanged. -/
theorem recovery_error_keys_independent (st : RecoveryState)
    (e now k : String) (n : Nat) (h : k ≠ revenue_error_key e) :
    (iterate_revenue_failures st e now n).recovery_attempts k
      = st.recovery_attempts k := by
  induction n with
  | zero => rfl
  | succ m ih =>
    rw [iterate_revenue_failures, handle_revenue_error_state]
    simp only [if_neg h]
    exact ih

/-- Witness for C9: five failures under the `"boom"`-derived key leave
the key `"other"` at its initial counter. -/
theorem recovery_error_keys_independent_witness :
    RecoveryState.recovery_attempts
        (iterate_revenue_failures ⟨fun _ => 0, 3⟩ ("boom") ("t3") 5)
        ("other") = 0 :=
  recovery_error_keys_independent ⟨fun _ => 0, 3⟩ ("boom") ("t3") ("other") 5
    (by decide)

/-! ## Claims about `PodcastBookingAgent.execute_task` -/

/-- **C4, counterexample.** Dispatching a task of unknown kind does not
signal any `HandlerNotFound` condition: `execute_task("bogus")` matches
neither `if/elif` branch, falls off the end of the `try` body, and
returns Python `None` with a clean `WORKING → COMPLETED` status trace —
a null success, exactly what the claim rules out. -/
theorem unknown_kind_silent_none :
    (podcast_execute_task (fun _ _ => "") ("t")
        { task_type := "bogus", data := { podcasts := none,
                                          pitch_template := none } }).result
        = none ∧
      (podcast_execute_task (fun _ _ => "") ("t")
        { task_type := "bogus", data := { podcasts := none,
                                          pitch_template := none } }).statuses
        = [AgentStatus.working, AgentStatus.completed] :=
  ⟨rfl, rfl⟩

/-- **C4, amended.** For every task whose kind is neither of the two
handled kinds, `execute_task` silently returns `None` (no result) and
raises nothing — it does not signal a `HandlerNotFound` condition. -/
theorem unknown_kind_returns_none (personalize : String → Podcast → String)
    (now : String) (task : PTask)
    (h1 : task.task_type ≠ "find_podcasts")
    (h2 : task.task_type ≠ "pitch_podcast") :
    (podcast_execute_task personalize now task).result = none ∧
      (podcast_execute_task personalize now task).statuses
        = [AgentStatus.working, AgentStatus.completed] := by
  unfold podcast_execute_task
  rw [if_neg h1, if_neg h2]
  exact ⟨rfl, rfl⟩

/-- Witness for the amended C4 at a concrete unregistered kind. -/
theorem unknown_kind_returns_none_witness :
    (podcast_execute_task (fun _ _ => "") ("t")
        { task_type := "negotiate_contract",
          data := { podcasts := none, pitch_template := none } }).result
        = none ∧
      (podcast_execute_task (fun _ _ => "") ("t")
        { task_type := "negotiate_contract",
          data := { podcasts := none, pitch_template := none } }).statuses
        = [AgentStatus.working, AgentStatus.completed] :=
  unknown_kind_returns_none (fun _ _ => "") ("t")
    { task_type := "negotiate_contract",
      data := { podcasts := none, pitch_template := none } }
    (by decide) (by decide)

/-- **C5 (code bug).** On a failing `pitch_podcast` task (payload with
no `"podcasts"` key, so `data["podcasts"]` raises `KeyError`), the
`except` clause sets `status = ERROR` — but the `finally` clause then
unconditionally sets `status = COMPLETED`, so the status moves
`error → completed` within the same invocation, violating the
spec invariant that `error` is terminal. -/
theorem error_status_overwritten_by_completed :
    (podcast_execute_task (fun _ _ => "") ("t")
        { task_type := "pitch_podcast",
          data := { podcasts := none, pitch_template := none } }).statuses
      = [AgentStatus.working, AgentStatus.error, AgentStatus.completed] :=
  rfl

/-! ## Claim about `start_autonomous_operation` -/

/-- **C6, counterexample.** With one failing cycle between two
successful ones, the entry point (default `asyncio.gather`, no
`return_exceptions=True`) propagates the exception: the successful
cycles' summaries are *not* returned. -/
theorem gather_propagates_exception_at_input :
    start_autonomous_operation
        [Except.ok (1 : Nat), Except.error ("boom"), Except.ok 2]
      = Except.error ("boom") := rfl

/-- **C6, amended.** When any gathered cycle fails, the top-level entry
point propagates an exception to its caller and returns no summaries at
all (isolation between cycles exists only inside the individual cycle
methods' `try/except` bodies, not at this entry point). -/
theorem cycle_failure_propagates {α : Type} (cycles : List (Except String α))
    (e : String) (h : Except.error e ∈ cycles) :
    ∃ e2, start_autonomous_operation cycles = Except.error e2 := by
  induction cycles with
  | nil => cases h
  | cons c rest ih =>
    cases c with
    | error e3 => exact ⟨e3, rfl⟩
    | ok a =>
      rcases List.mem_cons.mp h with h1 | h1
      · exact absurd h1 (by simp)
      · obtain ⟨e2, h2⟩ := ih h1
        refine ⟨e2, ?_⟩
        simp only [start_autonomous_operation, asyncio_gather] at h2 ⊢
        rw [h2]
        rfl

/-- Witness for the amended C6 at a concrete cycle list. -/
theorem cycle_failure_propagates_witness :
    ∃ e2, start_autonomous_operation [Except.ok (5 : Nat), Except.error ("down")]
      = Except.error e2 :=
  cycle_failure_propagates [Except.ok (5 : Nat), Except.error ("down")]
    ("down") (by simp)

end AiEmpire
